import Mathlib

/-!
Verification of the LangChainOllama example scripts.

This file gives a shallow embedding, in Lean 4, of the pure control flow of
five scripts of the repository:

  * `LangChainWebTool.py`   — `WebSearchAgent.search_with_fallback`
  * `LangChainBasic.py`     — `BasicLLMPipeline.explain_topic`
  * `LangChainRAG.py`       — `RAGSystem.query`
  * `LangChainFactCheckAgent.py` — `SimplifiedFactCheckAgent` and `FactCheckResult`
  * `LangChainSQL.py`       — `OptimizedSQLAgent.query` / `query_direct_sql`

Modelling conventions, used throughout:

  * Outcomes of calls into external services (the DuckDuckGo search backends,
    the Ollama LLM, the SQLite database, the LangChain agent loop) are supplied
    by an environment record; a call that raises an exception is an
    `Except.error` carrying the exception message, a call that returns is
    `Except.ok`.
  * A Python value that may or may not be a string is a `PyInput`; `.nonStr`
    stands for any non-string argument (such as `None`).
  * A function that can propagate a Python exception to its caller returns
    `Except String α`; a function wrapped in a broad `try/except` that always
    returns is total.
  * Python `str` operations (`strip`, `lower`, `replace`, `split`, `join`,
    slicing, substring tests) are re-implemented below on `List Char` so that
    every definition reduces in the kernel. Python floats are modelled as
    rationals.
-/

/-- Models a Python argument that may not be a string: `.nonStr` stands for any
non-string value such as `None`. -/
inductive PyInput where
  | str (s : String)
  | nonStr
deriving DecidableEq, Repr

/-- The whitespace characters stripped by Python `str.strip()` (the common
ASCII ones; the scripts never produce the exotic Unicode spaces). -/
def isPyWs (c : Char) : Bool :=
  c = ' ' || c = '\t' || c = '\n' || c = '\r' || c = '\x0b' || c = '\x0c'

/-- `str.strip()` on the character list. -/
def pyStripList (l : List Char) : List Char :=
  ((l.dropWhile isPyWs).reverse.dropWhile isPyWs).reverse

/-- Python `s.strip()`. -/
def pyStrip (s : String) : String := ⟨pyStripList s.data⟩

/-- Python `s.lower()` (exact on the ASCII letters; the non-ASCII characters
appearing in this repository are caseless, where the two agree). -/
def pyLower (s : String) : String := ⟨s.data.map Char.toLower⟩

/-- Python `s.startswith(pat)`. -/
def pyStartsWith (s pat : String) : Bool := pat.data.isPrefixOf s.data

def pyContainsAux (pat : List Char) : List Char → Bool
  | [] => pat.isEmpty
  | c :: rest => pat.isPrefixOf (c :: rest) || pyContainsAux pat rest

/-- Python `pat in s` (substring containment). -/
def pyContains (s pat : String) : Bool := pyContainsAux pat.data s.data

def pyReplaceAux (p : Char) (ps rep : List Char) : Nat → List Char → List Char
  | _, [] => []
  | 0, l => l
  | fuel + 1, c :: rest =>
    if (p :: ps).isPrefixOf (c :: rest) then
      rep ++ pyReplaceAux p ps rep fuel (rest.drop ps.length)
    else
      c :: pyReplaceAux p ps rep fuel rest

/-- Python `s.replace(pat, rep)`: every non-overlapping occurrence, left to
right. The fuel argument, one unit per character consumed, only serves
structural recursion; `s.length` is always enough. (The scripts never call
`replace` with an empty pattern, for which Python would insert `rep` between
all characters; here it is the identity.) -/
def pyReplace (s pat rep : String) : String :=
  match pat.data with
  | [] => s
  | p :: ps => ⟨pyReplaceAux p ps rep.data s.data.length s.data⟩

def pySplitNlAux : List Char → List (List Char)
  | [] => [[]]
  | c :: rest =>
    match pySplitNlAux rest with
    | [] => [[c]]
    | h :: t => if c = '\n' then [] :: h :: t else (c :: h) :: t

/-- Python `s.split('\n')`. -/
def pyLines (s : String) : List String := (pySplitNlAux s.data).map String.mk

/-- Python `sep.join(l)`. -/
def pyJoin (sep : String) : List String → String
  | [] => ""
  | a :: t => t.foldl (fun acc x => acc ++ sep ++ x) a

/-- The number of non-whitespace characters of a string. -/
def countNonWs (s : String) : Nat := (s.data.filter (fun c => !isPyWs c)).length

/-- Python `s[:n]` (slicing by code point, as Python slices `str`). -/
def pySlice (n : Nat) (s : String) : String := ⟨s.data.take n⟩

theorem pyStrip_empty : pyStrip "" = "" := rfl

/-- Stripping only removes whitespace: the non-whitespace characters survive. -/
theorem filter_nonWs_pyStripList (l : List Char) :
    (pyStripList l).filter (fun c => !isPyWs c) = l.filter (fun c => !isPyWs c) := by
  have drop : ∀ m : List Char,
      (m.dropWhile isPyWs).filter (fun c => !isPyWs c) = m.filter (fun c => !isPyWs c) := by
    intro m
    induction m with
    | nil => rfl
    | cons c rest ih =>
      by_cases hc : isPyWs c = true
      · simp [List.dropWhile_cons, List.filter_cons, hc, ih]
      · simp [List.dropWhile_cons, List.filter_cons, hc]
  unfold pyStripList
  rw [List.filter_reverse, drop, List.filter_reverse, drop, List.reverse_reverse]

theorem countNonWs_le_strip_length (s : String) :
    countNonWs s ≤ (pyStrip s).length := by
  have h := filter_nonWs_pyStripList s.data
  have : countNonWs s = ((pyStripList s.data).filter (fun c => !isPyWs c)).length := by
    unfold countNonWs
    rw [h]
  rw [this]
  have : (pyStrip s).length = (pyStripList s.data).length := rfl
  rw [this]
  exact List.length_filter_le _ _

/-!
## `LangChainWebTool.py` — `WebSearchAgent.search_with_fallback`

`search_with_fallback` (lines 25–62) validates the query, then tries up to
three search strategies in order, each wrapped in `try/except`:
API backend, HTML backend, and the API backend on a simplified query
(the query with "ล่าสุด" and "วันนี้" removed and stripped, provided that is
non-empty and differs from the original query). An attempt's result is
accepted when it is truthy and its stripped length exceeds 10. The
environment supplies the outcome of each `DuckDuckGoSearchRun(...).run(...)`
call; the returned trace lists the strategies whose search was run.
-/

namespace WebSearchAgent

inductive Stage where
  | api
  | html
  | simplified
deriving DecidableEq, Repr

/-- Outcomes of the three possible search calls of one
`search_with_fallback` invocation: `.error` means the call raised. -/
structure SearchEnv where
  api : Except String String
  html : Except String String
  apiSimplified : Except String String

/-- The quality check `result and len(result.strip()) > 10` of lines 35 and 45. -/
def good_result (r : String) : Bool :=
  r != "" && decide (10 < (pyStrip r).length)

/-- Line 52: `query.replace("ล่าสุด", "").replace("วันนี้", "").strip()`. -/
def simplified_query (q : String) : String :=
  pyStrip (pyReplace (pyReplace q "ล่าสุด" "") "วันนี้" "")

/-- The fixed apology returned when every strategy is exhausted (line 62). -/
def fallback_msg : String :=
  "Final Answer: ขออภัย ไม่สามารถค้นหาข้อมูลได้ในขณะนี้ กรุณาลองใหม่อีกครั้งหรือเปลี่ยนคำค้นหา"

/-- Strategy 3 (lines 50–60): the simplified query on the API backend. -/
def stage3 (query : String) (env : SearchEnv) (tr : List Stage) : String × List Stage :=
  let s := simplified_query query
  if s != "" && s != query then
    match env.apiSimplified with
    | .ok r =>
      if good_result r then ("Final Answer: " ++ r, tr ++ [Stage.simplified])
      else (fallback_msg, tr ++ [Stage.simplified])
    | .error _ => (fallback_msg, tr ++ [Stage.simplified])
  else (fallback_msg, tr)

/-- Strategy 2 (lines 40–48): the HTML backend. -/
def stage2 (query : String) (env : SearchEnv) (tr : List Stage) : String × List Stage :=
  match env.html with
  | .ok r =>
    if good_result r then ("Final Answer: " ++ r, tr ++ [Stage.html])
    else stage3 query env (tr ++ [Stage.html])
  | .error _ => stage3 query env (tr ++ [Stage.html])

/-- `search_with_fallback` (lines 25–62), instrumented with the list of
strategies whose search call was actually run. -/
def search_with_fallbackT (query : String) (env : SearchEnv) : String × List Stage :=
  if pyStrip query = "" then ("Final Answer: คำค้นหาว่างหรือไม่ถูกต้อง", [])
  else
    match env.api with
    | .ok r =>
      if good_result r then ("Final Answer: " ++ r, [Stage.api])
      else stage2 query env [Stage.api]
    | .error _ => stage2 query env [Stage.api]

/-- The string `search_with_fallback` returns. -/
def search_with_fallback (query : String) (env : SearchEnv) : String :=
  (search_with_fallbackT query env).1

/-- An attempt fails when its call raised or its result flunks the quality
check of lines 35/45 (`result and len(result.strip()) > 10`). -/
def attempt_fails : Except String String → Bool
  | .error _ => true
  | .ok r => !good_result r

theorem attempt_fails_nonWs (e : Except String String) (h : attempt_fails e = true) :
    (∃ msg, e = .error msg) ∨ ∃ r, e = .ok r ∧ countNonWs r ≤ 10 := by
  cases e with
  | error msg => exact Or.inl ⟨msg, rfl⟩
  | ok r =>
    refine Or.inr ⟨r, rfl, ?_⟩
    have hg : ¬r = "" → (pyStrip r).length ≤ 10 := by
      have hb : good_result r = false := by
        simpa [attempt_fails] using h
      simp [good_result] at hb
      exact hb
    by_cases hr : r = ""
    · subst hr
      simp [countNonWs]
    · exact le_trans (countNonWs_le_strip_length r) (hg hr)

theorem stage3_trace (q : String) (env : SearchEnv) (tr : List Stage) :
    (stage3 q env tr).2 = tr ∨ (stage3 q env tr).2 = tr ++ [Stage.simplified] := by
  unfold stage3
  by_cases hc : (simplified_query q != "" && simplified_query q != q) = true
  · cases env.apiSimplified with
    | ok r =>
      by_cases hg : good_result r = true
      · simp [hc, hg]
      · simp [hc, hg]
    | error e => simp [hc]
  · simp [hc]

theorem stage3_mem (q : String) (env : SearchEnv) (tr : List Stage)
    (h : Stage.simplified ∈ (stage3 q env tr).2) :
    Stage.simplified ∈ tr ∨ (simplified_query q ≠ "" ∧ simplified_query q ≠ q) := by
  unfold stage3 at h
  by_cases hc : (simplified_query q != "" && simplified_query q != q) = true
  · rcases Bool.and_eq_true_iff.mp hc with ⟨h1, h2⟩
    exact Or.inr ⟨by simpa using h1, by simpa using h2⟩
  · simp [hc] at h
    exact Or.inl h

theorem stage3_fails (q : String) (env : SearchEnv) (tr : List Stage)
    (h : attempt_fails env.apiSimplified = true) :
    (stage3 q env tr).1 = fallback_msg := by
  unfold stage3
  by_cases hc : (simplified_query q != "" && simplified_query q != q) = true
  · cases he : env.apiSimplified with
    | ok r =>
      have hg : good_result r = false := by
        rw [he] at h
        simpa [attempt_fails] using h
      simp [hc, hg]
    | error e => simp [hc]
  · simp [hc]

theorem stage3_shape (q : String) (env : SearchEnv) (tr : List Stage) :
    (stage3 q env tr).1 = fallback_msg ∨ ∃ r, (stage3 q env tr).1 = "Final Answer: " ++ r := by
  unfold stage3
  by_cases hc : (simplified_query q != "" && simplified_query q != q) = true
  · cases env.apiSimplified with
    | ok r =>
      by_cases hg : good_result r = true
      · refine Or.inr ⟨r, ?_⟩
        simp [hc, hg]
      · refine Or.inl ?_
        simp [hc, hg]
    | error e =>
      refine Or.inl ?_
      simp [hc]
  · refine Or.inl ?_
    simp [hc]

theorem stage2_case (q : String) (env : SearchEnv) :
    ((stage2 q env [Stage.api]).2 = [Stage.api, Stage.html] ∨
      (stage2 q env [Stage.api]).2 = [Stage.api, Stage.html, Stage.simplified]) ∧
    (Stage.simplified ∈ (stage2 q env [Stage.api]).2 →
      attempt_fails env.html = true ∧ simplified_query q ≠ q) ∧
    (attempt_fails env.html = true ∧ attempt_fails env.apiSimplified = true →
      (stage2 q env [Stage.api]).1 = fallback_msg) ∧
    ((stage2 q env [Stage.api]).1 = fallback_msg ∨
      ∃ r, (stage2 q env [Stage.api]).1 = "Final Answer: " ++ r) := by
  unfold stage2
  cases he : env.html with
  | ok r =>
    by_cases hg : good_result r = true
    · refine ⟨Or.inl (by simp [hg]), ?_, ?_, Or.inr ⟨r, by simp [hg]⟩⟩
      · intro hmem
        simp [hg] at hmem
      · rintro ⟨hfail, -⟩
        simp [attempt_fails, hg] at hfail
    · have hfail : attempt_fails (Except.ok r) = true := by
        simp [attempt_fails, hg]
      refine ⟨?_, ?_, ?_, ?_⟩
      · simpa [hg] using stage3_trace q env [Stage.api, Stage.html]
      · intro hmem
        simp only [hg, Bool.false_eq_true, if_false] at hmem
        rcases stage3_mem q env [Stage.api, Stage.html] hmem with hin | ⟨-, hne⟩
        · simp at hin
        · exact ⟨hfail, hne⟩
      · rintro ⟨-, h3⟩
        simpa [hg] using stage3_fails q env [Stage.api, Stage.html] h3
      · simpa [hg] using stage3_shape q env [Stage.api, Stage.html]
  | error e =>
    have hfail : attempt_fails (Except.error (α := String) (ε := String) e) = true := rfl
    refine ⟨?_, ?_, ?_, ?_⟩
    · simpa using stage3_trace q env [Stage.api, Stage.html]
    · intro hmem
      simp only at hmem
      rcases stage3_mem q env [Stage.api, Stage.html] hmem with hin | ⟨-, hne⟩
      · simp at hin
      · exact ⟨hfail, hne⟩
    · rintro ⟨-, h3⟩
      simpa using stage3_fails q env [Stage.api, Stage.html] h3
    · simpa using stage3_shape q env [Stage.api, Stage.html]

end WebSearchAgent

open WebSearchAgent in
/-- C1: for every query that is non-empty after stripping,
`WebSearchAgent.search_with_fallback` tries the backends in the fixed linear
order API, HTML, simplified-query-on-API: the trace is always a prefix of that
order starting with the API attempt; the HTML backend runs only if the API
attempt raised or returned a result of at most 10 non-whitespace characters;
the simplified-query attempt runs only if both previous attempts failed and
the simplified query differs from the original; if every attempt fails the
returned string is exactly the fixed apology; and the function always returns
a string (never raises): either the apology or a `Final Answer:` result. -/
theorem C1_search_with_fallback_cascade (q : String) (env : SearchEnv)
    (h : pyStrip q ≠ "") :
    ((search_with_fallbackT q env).2 = [Stage.api] ∨
      (search_with_fallbackT q env).2 = [Stage.api, Stage.html] ∨
      (search_with_fallbackT q env).2 = [Stage.api, Stage.html, Stage.simplified]) ∧
    (Stage.html ∈ (search_with_fallbackT q env).2 →
      (∃ msg, env.api = .error msg) ∨ ∃ r, env.api = .ok r ∧ countNonWs r ≤ 10) ∧
    (Stage.simplified ∈ (search_with_fallbackT q env).2 →
      attempt_fails env.api = true ∧ attempt_fails env.html = true ∧
        simplified_query q ≠ q) ∧
    (attempt_fails env.api = true ∧ attempt_fails env.html = true ∧
        attempt_fails env.apiSimplified = true →
      (search_with_fallbackT q env).1 = fallback_msg) ∧
    ((search_with_fallbackT q env).1 = fallback_msg ∨
      ∃ r, (search_with_fallbackT q env).1 = "Final Answer: " ++ r) := by
  unfold search_with_fallbackT
  rw [if_neg h]
  cases he : env.api with
  | ok r =>
    by_cases hg : good_result r = true
    · refine ⟨Or.inl (by simp [hg]), ?_, ?_, ?_, Or.inr ⟨r, by simp [hg]⟩⟩
      · intro hmem
        simp [hg] at hmem
      · intro hmem
        simp [hg] at hmem
      · rintro ⟨hfail, -, -⟩
        simp [attempt_fails, hg] at hfail
    · have hfail : attempt_fails (Except.ok r) = true := by
        simp [attempt_fails, hg]
      obtain ⟨htr, hmem, hall, hshape⟩ := stage2_case q env
      refine ⟨?_, ?_, ?_, ?_, ?_⟩
      · rcases htr with h1 | h1
        · exact Or.inr (Or.inl (by simpa [hg] using h1))
        · exact Or.inr (Or.inr (by simpa [hg] using h1))
      · intro _
        exact attempt_fails_nonWs (Except.ok r) hfail
      · intro hm
        have hm2 : Stage.simplified ∈ (stage2 q env [Stage.api]).2 := by
          simpa [hg] using hm
        obtain ⟨hh, hne⟩ := hmem hm2
        exact ⟨hfail, hh, hne⟩
      · rintro ⟨-, hh, hs⟩
        simpa [hg] using hall ⟨hh, hs⟩
      · simpa [hg] using hshape
  | error e =>
    have hfail : attempt_fails (Except.error (α := String) (ε := String) e) = true := rfl
    obtain ⟨htr, hmem, hall, hshape⟩ := stage2_case q env
    refine ⟨?_, ?_, ?_, ?_, ?_⟩
    · rcases htr with h1 | h1
      · exact Or.inr (Or.inl (by simpa using h1))
      · exact Or.inr (Or.inr (by simpa using h1))
    · intro _
      exact attempt_fails_nonWs _ hfail
    · intro hm
      have hm2 : Stage.simplified ∈ (stage2 q env [Stage.api]).2 := by
        simpa using hm
      obtain ⟨hh, hne⟩ := hmem hm2
      exact ⟨hfail, hh, hne⟩
    · rintro ⟨-, hh, hs⟩
      simpa using hall ⟨hh, hs⟩
    · simpa using hshape

/-- A concrete environment in which all three search calls raise. -/
def envC1 : WebSearchAgent.SearchEnv :=
  ⟨Except.error "ratelimit", Except.error "ratelimit", Except.error "ratelimit"⟩

/-- Witness for C1 at a concrete query and environment: with every search call
raising, the function returns exactly the fixed apology. -/
theorem C1_search_with_fallback_cascade_witness :
    (WebSearchAgent.search_with_fallbackT "AI ล่าสุด" envC1).1 =
      WebSearchAgent.fallback_msg :=
  (C1_search_with_fallback_cascade "AI ล่าสุด" envC1 (by decide)).2.2.2.1
    ⟨rfl, rfl, rfl⟩

/-!
## `LangChainBasic.py` — `BasicLLMPipeline.explain_topic`

`explain_topic` (lines 43–56) validates the topic, checks that the chain was
set up, invokes the chain, and on any exception returns a fixed Thai message
followed by the exception text. The environment is the outcome of
`self.chain.invoke({"topic": topic})`; the Bool result records whether the
chain was invoked.
-/

namespace BasicLLMPipeline

/-- `explain_topic` (lines 43–56), instrumented with whether
`self.chain.invoke` ran. `chain_set` is `self.chain` being truthy. -/
def explain_topicT (topic : PyInput) (chain_set : Bool)
    (env : Except String String) : String × Bool :=
  match topic with
  | .nonStr => ("หัวข้อว่างหรือไม่ถูกต้อง", false)
  | .str s =>
    if pyStrip s = "" then ("หัวข้อว่างหรือไม่ถูกต้อง", false)
    else if !chain_set then ("ระบบยังไม่พร้อมใช้งาน", false)
    else
      match env with
      | .ok r => (r, true)
      | .error e => ("ไม่สามารถอธิบายหัวข้อได้: " ++ e, true)

/-- The string `explain_topic` returns. -/
def explain_topic (topic : PyInput) (chain_set : Bool)
    (env : Except String String) : String :=
  (explain_topicT topic chain_set env).1

end BasicLLMPipeline

/-- C5: for every topic that is not a string or strips to the empty string,
`BasicLLMPipeline.explain_topic` returns exactly the fixed message
`หัวข้อว่างหรือไม่ถูกต้อง` and does not invoke the model chain. -/
theorem C5_explain_topic_empty_input (topic : PyInput) (chain_set : Bool)
    (env : Except String String)
    (h : topic = PyInput.nonStr ∨ ∃ s, topic = PyInput.str s ∧ pyStrip s = "") :
    BasicLLMPipeline.explain_topicT topic chain_set env =
      ("หัวข้อว่างหรือไม่ถูกต้อง", false) := by
  rcases h with h | ⟨s, rfl, hs⟩
  · subst h
    rfl
  · simp [BasicLLMPipeline.explain_topicT, hs]

/-- Witness for C5 at the concrete whitespace-only topic `" "`. -/
theorem C5_explain_topic_empty_input_witness :
    BasicLLMPipeline.explain_topicT (PyInput.str " ") true (Except.ok "output") =
      ("หัวข้อว่างหรือไม่ถูกต้อง", false) :=
  C5_explain_topic_empty_input (PyInput.str " ") true (Except.ok "output")
    (Or.inr ⟨" ", rfl, by decide⟩)

/-!
## `LangChainRAG.py` — `RAGSystem.query`

`query` (lines 101–116) validates the question, checks `self.qa_chain`, and
invokes the QA chain. The environment is the outcome of
`self.qa_chain.invoke(question)`: on success it carries `result["result"]`
and, for each source document, `doc.metadata.get("source")` (`none` when the
metadata has no source). The Bool records whether the chain was invoked.
-/

namespace RAGSystem

structure RagAnswer where
  answer : String
  sources : List String
deriving DecidableEq, Repr

/-- `query` (lines 101–116), instrumented with whether `qa_chain.invoke`
ran. `chain_set` is `self.qa_chain` being truthy. -/
def queryT (question : PyInput) (chain_set : Bool)
    (env : Except String (String × List (Option String))) : RagAnswer × Bool :=
  match question with
  | .nonStr => (⟨"คำถามว่างหรือไม่ถูกต้อง", []⟩, false)
  | .str s =>
    if pyStrip s = "" then (⟨"คำถามว่างหรือไม่ถูกต้อง", []⟩, false)
    else if !chain_set then (⟨"ระบบยังไม่พร้อมใช้งาน กรุณาตั้งค่าก่อน", []⟩, false)
    else
      match env with
      | .ok (res, docs) =>
        (⟨res, docs.map (fun d => d.getD "ไม่ทราบแหล่งที่มา")⟩, true)
      | .error e => (⟨"เกิดข้อผิดพลาด: " ++ e, []⟩, true)

end RAGSystem

/-- C7 counterexample: with the QA chain not set up and the empty question,
`RAGSystem.query` returns the empty-question answer, not the fixed
`ระบบยังไม่พร้อมใช้งาน กรุณาตั้งค่าก่อน` answer the claim requires whenever the
chain has not been set up. -/
theorem C7_rag_query_counterexample :
    RAGSystem.queryT (PyInput.str "") false (Except.ok ("x", [])) =
        (⟨"คำถามว่างหรือไม่ถูกต้อง", []⟩, false) ∧
      (RAGSystem.queryT (PyInput.str "") false (Except.ok ("x", []))).1.answer ≠
        "ระบบยังไม่พร้อมใช้งาน กรุณาตั้งค่าก่อน" := by
  exact ⟨rfl, by decide⟩

/-- C7 (amended): for every question that is not a string or strips to the
empty string, `RAGSystem.query` returns exactly
`{"answer": "คำถามว่างหรือไม่ถูกต้อง", "sources": []}` without invoking the
model; and whenever the QA chain has not been set up **and the question is a
string that is non-empty after stripping**, it returns exactly
`{"answer": "ระบบยังไม่พร้อมใช้งาน กรุณาตั้งค่าก่อน", "sources": []}` without
invoking the model. -/
theorem C7_rag_query_validation (question : PyInput) (chain_set : Bool)
    (env : Except String (String × List (Option String))) :
    ((question = PyInput.nonStr ∨ ∃ s, question = PyInput.str s ∧ pyStrip s = "") →
      RAGSystem.queryT question chain_set env =
        (⟨"คำถามว่างหรือไม่ถูกต้อง", []⟩, false)) ∧
    (∀ s, question = PyInput.str s → pyStrip s ≠ "" → chain_set = false →
      RAGSystem.queryT question chain_set env =
        (⟨"ระบบยังไม่พร้อมใช้งาน กรุณาตั้งค่าก่อน", []⟩, false)) := by
  constructor
  · rintro (h | ⟨s, rfl, hs⟩)
    · subst h
      rfl
    · simp [RAGSystem.queryT, hs]
  · rintro s rfl hs hc
    subst hc
    simp [RAGSystem.queryT, hs]

/-!
## `LangChainFactCheckAgent.py` — `SimplifiedFactCheckAgent`

The agent validates a claim, gathers evidence through up to
`max_search_results` DuckDuckGo searches (API backend first, HTML backend
after an API failure), asks the critic LLM for an analysis, parses the
analysis with line prefixes and the regex `0\.\d+|\d+\.\d+`, and packages a
pydantic `FactCheckResult` whose constructor validates the verdict literal,
the confidence range `[0, 1]` and the status literal and raises a
`ValidationError` otherwise. The environment supplies the outcome of each
search call and of the critic LLM call, keyed by the query or prompt.
-/

namespace SimplifiedFactCheckAgent

/-- The dict `_parse_analysis_response` and `analyze_claim` produce
(verdict, confidence_score, reasoning, key_evidence, limitations). -/
structure Analysis where
  verdict : String
  confidence_score : ℚ
  reasoning : String
  key_evidence : List String
  limitations : String
deriving DecidableEq, Repr

/-- The four verdict literals of `FactCheckResult.verdict` (line 21). -/
def valid_verdict (v : String) : Bool :=
  v = "จริง" || v = "เท็จ" || v = "ไม่แน่ใจ" || v = "ข้อมูลไม่เพียงพอ"

/-- The three status literals of `FactCheckResult.status` (line 28). -/
def valid_status (s : String) : Bool :=
  s = "สำเร็จ" || s = "ล้มเหลว" || s = "ข้อมูลไม่เพียงพอ"

def digitsToNat (ds : List Char) : Nat :=
  ds.foldl (fun a c => a * 10 + (c.toNat - 48)) 0

/-- The rational `0.ds` denotes (the fractional digits over the power of
ten). -/
def fracVal (ds : List Char) : ℚ :=
  mkRat (digitsToNat ds) (10 ^ ds.length)

/-- The leftmost match of the regex `0\.\d+|\d+\.\d+` (line 247), as the
rational it denotes; at each position the first alternative is preferred and
the digit runs are maximal, as Python `re` matches. -/
def findFloatAux : List Char → Option ℚ
  | [] => none
  | c :: rest =>
    let alt1 : Option ℚ :=
      if c = '0' then
        match rest with
        | '.' :: r2 =>
          let ds := r2.takeWhile Char.isDigit
          if ds.isEmpty then none else some (fracVal ds)
        | _ => none
      else none
    match alt1 with
    | some v => some v
    | none =>
      if c.isDigit then
        let run := (c :: rest).takeWhile Char.isDigit
        match (c :: rest).dropWhile Char.isDigit with
        | '.' :: r3 =>
          let ds := r3.takeWhile Char.isDigit
          if ds.isEmpty then findFloatAux rest
          else some (mkRat (digitsToNat run * 10 ^ ds.length + digitsToNat ds) (10 ^ ds.length))
        | _ => findFloatAux rest
      else findFloatAux rest

/-- `re.findall(r'0\.\d+|\d+\.\d+', text)` followed by `float(numbers[0])`
(lines 246–249), with the float value modelled as a rational. -/
def re_findall_float (s : String) : Option ℚ := findFloatAux s.data

/-- The `VERDICT:` branch of `_parse_analysis_response` (lines 231–240):
keyword groups tried in order on the stripped remainder of the line. -/
def verdict_update (acc : Analysis) (vt : String) : Analysis :=
  if ["จริง", "ถูก", "correct", "true"].any (fun w => pyContains vt w) then
    { acc with verdict := "จริง" }
  else if ["เท็จ", "ผิด", "false", "incorrect"].any (fun w => pyContains vt w) then
    { acc with verdict := "เท็จ" }
  else if ["ไม่แน่ใจ", "uncertain"].any (fun w => pyContains vt w) then
    { acc with verdict := "ไม่แน่ใจ" }
  else if ["ไม่เพียงพอ", "insufficient"].any (fun w => pyContains vt w) then
    { acc with verdict := "ข้อมูลไม่เพียงพอ" }
  else acc

/-- One iteration of the line loop of `_parse_analysis_response`
(lines 229–266). -/
def parse_line (acc : Analysis) (raw : String) : Analysis :=
  let line := pyStrip raw
  if pyStartsWith line "VERDICT:" then
    verdict_update acc (pyStrip (pyReplace line "VERDICT:" ""))
  else if pyStartsWith line "CONFIDENCE:" then
    match re_findall_float (pyStrip (pyReplace line "CONFIDENCE:" "")) with
    | some v => { acc with confidence_score := v }
    | none => acc
  else if pyStartsWith line "REASONING:" then
    let r := pyStrip (pyReplace line "REASONING:" "")
    if r ≠ "" then { acc with reasoning := r } else acc
  else if pyStartsWith line "KEY_EVIDENCE:" then
    let e := pyStrip (pyReplace line "KEY_EVIDENCE:" "")
    if e ≠ "" then { acc with key_evidence := [e] } else acc
  else if pyStartsWith line "LIMITATIONS:" then
    let l := pyStrip (pyReplace line "LIMITATIONS:" "")
    if l ≠ "" then { acc with limitations := l } else acc
  else acc

/-- `_parse_analysis_response` (lines 215–268): the default dict updated by
each line of the response. Its `try/except` wrapper is dead code — no
operation of the loop raises — so the function is total. -/
def _parse_analysis_response (response : String) : Analysis :=
  (pyLines response).foldl parse_line
    ⟨"ไม่แน่ใจ", mkRat 1 2, response, [], "การวิเคราะห์อัตโนมัติ"⟩

theorem verdict_update_valid (acc : Analysis) (vt : String)
    (h : valid_verdict acc.verdict = true) :
    valid_verdict (verdict_update acc vt).verdict = true := by
  unfold verdict_update
  repeat' split
  all_goals first | rfl | exact h

theorem verdict_update_conf (acc : Analysis) (vt : String) :
    (verdict_update acc vt).confidence_score = acc.confidence_score := by
  unfold verdict_update
  repeat' split
  all_goals rfl


set_option maxHeartbeats 1000000 in
theorem parse_line_verdict_valid (acc : Analysis) (raw : String)
    (h : valid_verdict acc.verdict = true) :
    valid_verdict (parse_line acc raw).verdict = true := by
  simp only [parse_line]
  repeat' split
  all_goals first | exact verdict_update_valid _ _ h | exact h

set_option maxHeartbeats 1000000 in
theorem parse_line_verdict_skip (acc : Analysis) (raw : String)
    (h : pyStartsWith (pyStrip raw) "VERDICT:" = false) :
    (parse_line acc raw).verdict = acc.verdict := by
  simp only [parse_line, h, Bool.false_eq_true, if_false]
  repeat' split
  all_goals rfl

set_option maxHeartbeats 1000000 in
theorem parse_line_conf_skip (acc : Analysis) (raw : String)
    (h : pyStartsWith (pyStrip raw) "CONFIDENCE:" = false) :
    (parse_line acc raw).confidence_score = acc.confidence_score := by
  simp only [parse_line, h, Bool.false_eq_true, if_false]
  repeat' split
  all_goals first | rfl | exact verdict_update_conf _ _

theorem foldl_parse_verdict_valid (lines : List String) (acc : Analysis)
    (h : valid_verdict acc.verdict = true) :
    valid_verdict ((lines.foldl parse_line acc).verdict) = true := by
  induction lines generalizing acc with
  | nil => exact h
  | cons l rest ih => exact ih _ (parse_line_verdict_valid _ _ h)

theorem foldl_parse_verdict_skip (lines : List String) (acc : Analysis)
    (h : ∀ l ∈ lines, pyStartsWith (pyStrip l) "VERDICT:" = false) :
    (lines.foldl parse_line acc).verdict = acc.verdict := by
  induction lines generalizing acc with
  | nil => rfl
  | cons l rest ih =>
    rw [List.foldl_cons, ih _ (fun x hx => h x (List.mem_cons_of_mem _ hx)),
      parse_line_verdict_skip _ _ (h l (List.mem_cons_self _ _))]

theorem foldl_parse_conf_skip (lines : List String) (acc : Analysis)
    (h : ∀ l ∈ lines, pyStartsWith (pyStrip l) "CONFIDENCE:" = false) :
    (lines.foldl parse_line acc).confidence_score = acc.confidence_score := by
  induction lines generalizing acc with
  | nil => rfl
  | cons l rest ih =>
    rw [List.foldl_cons, ih _ (fun x hx => h x (List.mem_cons_of_mem _ hx)),
      parse_line_conf_skip _ _ (h l (List.mem_cons_self _ _))]

end SimplifiedFactCheckAgent

/-- C8 counterexample: on the response `"  VERDICT: จริง\nCONFIDENCE: 0.9"` no
line starts with `VERDICT:` (the first begins with spaces), yet the verdict is
`จริง`, not the default `ไม่แน่ใจ`, and the confidence is `0.9`, not the
default `0.5`: the code strips each line before testing its prefix, and the
confidence default is governed by `CONFIDENCE:` lines, not `VERDICT:` lines. -/
theorem C8_parse_analysis_counterexample :
    (∀ l ∈ pyLines "  VERDICT: จริง\nCONFIDENCE: 0.9", pyStartsWith l "VERDICT:" = false) ∧
    (SimplifiedFactCheckAgent._parse_analysis_response
        "  VERDICT: จริง\nCONFIDENCE: 0.9").verdict ≠ "ไม่แน่ใจ" ∧
    (SimplifiedFactCheckAgent._parse_analysis_response
        "  VERDICT: จริง\nCONFIDENCE: 0.9").confidence_score ≠ mkRat 1 2 := by
  refine ⟨by decide, by decide, by decide⟩

open SimplifiedFactCheckAgent in
/-- C8 (amended): `_parse_analysis_response` is total and never raises; for
every input the verdict is one of the four literals; when no line of the
input **after stripping** starts with `VERDICT:` the verdict is the default
`ไม่แน่ใจ`; and when no line after stripping starts with `CONFIDENCE:` the
confidence score is the default `0.5`. -/
theorem C8_parse_analysis_defaults (s : String) :
    valid_verdict (_parse_analysis_response s).verdict = true ∧
    ((∀ l ∈ pyLines s, pyStartsWith (pyStrip l) "VERDICT:" = false) →
      (_parse_analysis_response s).verdict = "ไม่แน่ใจ") ∧
    ((∀ l ∈ pyLines s, pyStartsWith (pyStrip l) "CONFIDENCE:" = false) →
      (_parse_analysis_response s).confidence_score = mkRat 1 2) := by
  refine ⟨foldl_parse_verdict_valid _ _ rfl, ?_, ?_⟩
  · intro h
    exact foldl_parse_verdict_skip _ _ h
  · intro h
    exact foldl_parse_conf_skip _ _ h

/-- Witness for C8 (amended) at the concrete response `"no structure"`. -/
theorem C8_parse_analysis_defaults_witness :
    (SimplifiedFactCheckAgent._parse_analysis_response "no structure").verdict =
      "ไม่แน่ใจ" :=
  (C8_parse_analysis_defaults "no structure").2.1 (by decide)

namespace SimplifiedFactCheckAgent

/-- A search provider of `search_information`. -/
inductive Provider where
  | api
  | html
deriving DecidableEq, Repr

/-- Outcomes of the external calls one fact-check makes, keyed by query
resp. prompt: `.error` means the call raised. -/
structure FCEnv where
  searchApi : String → Except String String
  searchHtml : String → Except String String
  analyze : String → Except String String

/-- The dict `search_information` returns (lines 61–109). Branches of the
source that omit a key leave the modelled field at `""`. -/
structure SearchOutcome where
  success : Bool
  query : String
  results : List String
  method : String
  errMsg : String
deriving DecidableEq, Repr

/-- `search_information` (lines 61–109), instrumented with the providers
actually tried, in order: the API backend first and the HTML backend only
when the API call raised. -/
def search_informationT (query : String) (env : FCEnv) :
    SearchOutcome × List Provider :=
  if pyStrip query = "" then
    (⟨false, "", [], "", "คำค้นหาว่าง"⟩, [])
  else
    match env.searchApi query with
    | .ok r => (⟨true, query, [r], "api", ""⟩, [Provider.api])
    | .error _ =>
      match env.searchHtml query with
      | .ok r => (⟨true, query, [r], "html", ""⟩, [Provider.api, Provider.html])
      | .error e2 =>
        (⟨false, query, [], "", "การค้นหาล้มเหลว: " ++ e2⟩,
          [Provider.api, Provider.html])

/-- Lines 113–117: the three query templates filled with the claim. -/
def base_queries (claim : String) : List String :=
  ["ตรวจสอบข้อเท็จจริง " ++ claim, "ข้อมูล " ++ claim, "หลักฐาน " ++ claim]

/-- Lines 120–130: the extra keyword queries added when the claim contains a
digit. -/
def key_words (claim : String) : List String :=
  (if pyContains claim "ประเทศไทย" || pyContains claim "ไทย" then ["ประชากรไทย"] else []) ++
    (if pyContains claim "กรุงเทพ" then ["กรุงเทพมหานคร เมืองหลวง"] else []) ++
    (if pyContains claim "ทวีป" then ["จำนวนทวีปโลก"] else [])

/-- The full query list before truncation (`base_queries` after the
`extend`). -/
def extended_queries (claim : String) : List String :=
  base_queries claim ++
    (if claim.data.any Char.isDigit then key_words claim else [])

/-- `generate_search_queries` (lines 111–132):
`base_queries[:self.max_search_results]`. -/
def generate_search_queries (claim : String) (max_search_results : Nat) :
    List String :=
  (extended_queries claim).take max_search_results

/-- One iteration of the search loop of `collect_evidence` (lines 142–157):
the accumulator is (successful_searches, all_evidence). -/
def evidence_step (env : FCEnv) (acc : Nat × List (String × String))
    (q : String) : Nat × List (String × String) :=
  let r := (search_informationT q env).1
  if r.success then
    let txt := pyJoin "\n" r.results
    if pyStrip txt != "" then (acc.1 + 1, acc.2 ++ [(q, txt)])
    else (acc.1 + 1, acc.2)
  else acc

/-- The loop of `collect_evidence` over the generated queries. -/
def evidence_acc (claim : String) (m : Nat) (env : FCEnv) :
    Nat × List (String × String) :=
  (generate_search_queries claim m).foldl (evidence_step env) (0, [])

/-- The separator string of line 159. -/
def evidence_sep : String := "\n\n--- ผลการค้นหาต่อไปนี้ ---\n\n"

/-- Line 160: one joined entry, `คำค้นหา: {query}\nผลลัพธ์: {evidence}`. -/
def evidence_entry (p : String × String) : String :=
  "คำค้นหา: " ++ p.1 ++ "\nผลลัพธ์: " ++ p.2

/-- The dict `collect_evidence` returns (lines 164–169). -/
structure EvidenceSummary where
  evidence : String
  search_count : Nat
  successful_count : Nat
  success_rate : ℚ
deriving DecidableEq, Repr

/-- `collect_evidence` (lines 134–169). -/
def collect_evidence (claim : String) (m : Nat) (env : FCEnv) :
    EvidenceSummary :=
  let queries := generate_search_queries claim m
  let acc := evidence_acc claim m env
  let combined := pyJoin evidence_sep (acc.2.map evidence_entry)
  { evidence := if combined = "" then "ไม่พบข้อมูลสนับสนุน" else combined,
    search_count := queries.length,
    successful_count := acc.1,
    success_rate := if queries.isEmpty then 0 else mkRat acc.1 queries.length }

end SimplifiedFactCheckAgent

open SimplifiedFactCheckAgent in
/-- C10: for every claim and every `max_search_results = m`,
`generate_search_queries` returns at most `m` queries, a prefix of the full
base list, whose first three entries are the fixed templates filled with the
claim. -/
theorem C10_generate_search_queries (claim : String) (m : Nat) :
    (generate_search_queries claim m).length ≤ m ∧
    (∃ t, extended_queries claim = generate_search_queries claim m ++ t) ∧
    (extended_queries claim).take 3 =
      ["ตรวจสอบข้อเท็จจริง " ++ claim, "ข้อมูล " ++ claim, "หลักฐาน " ++ claim] := by
  refine ⟨?_, ⟨(extended_queries claim).drop m, (List.take_append_drop m _).symm⟩, ?_⟩
  · simp [generate_search_queries]
  · simp [extended_queries, base_queries]

theorem pyJoin_foldl_length (sep : String) (t : List String) (a : String) :
    a.length ≤ (t.foldl (fun acc x => acc ++ sep ++ x) a).length := by
  induction t generalizing a with
  | nil => exact le_refl _
  | cons x xs ih =>
    refine le_trans ?_ (ih (a ++ sep ++ x))
    simp only [String.length_append]
    omega

theorem pyJoin_ne_empty (sep a : String) (t : List String) (ha : a ≠ "") :
    pyJoin sep (a :: t) ≠ "" := by
  intro h
  have h1 : a.length ≤ (pyJoin sep (a :: t)).length := pyJoin_foldl_length sep t a
  rw [h] at h1
  have h0 : a.length = 0 := Nat.le_zero.mp h1
  exact ha (String.ext (List.length_eq_zero.mp h0))

namespace SimplifiedFactCheckAgent

theorem evidence_entry_ne_empty (p : String × String) : evidence_entry p ≠ "" := by
  intro h
  unfold evidence_entry at h
  have h1 := congrArg String.length h
  simp [String.length_append] at h1
  exact absurd h1.1.1.1 (by decide)

theorem evidence_foldl_le (env : FCEnv) (qs : List String)
    (acc : Nat × List (String × String)) (h : acc.2.length ≤ acc.1) :
    ((qs.foldl (evidence_step env) acc).2).length ≤
      (qs.foldl (evidence_step env) acc).1 := by
  induction qs generalizing acc with
  | nil => exact h
  | cons q rest ih =>
    rw [List.foldl_cons]
    refine ih _ ?_
    unfold evidence_step
    by_cases hs : ((search_informationT q env).1).success = true
    · by_cases ht :
        (pyStrip (pyJoin "\n" ((search_informationT q env).1).results) != "") = true
      · simp only [hs, if_true, ht]
        simp
        omega
      · simp only [hs, if_true, ht, Bool.false_eq_true, if_false]
        omega
    · simp only [hs, Bool.false_eq_true, if_false]
      exact h

end SimplifiedFactCheckAgent

open SimplifiedFactCheckAgent in
/-- C6 (amended): `collect_evidence` issues at most `max_search_results`
search queries; its `success_rate` is `successful_count / search_count` (and
`0` when the query list is empty); its evidence field joins, for each
successful search with a non-whitespace result, the entry
`คำค้นหา: {query}\nผลลัพธ์: {result}` with the separator
`"\n\n--- ผลการค้นหาต่อไปนี้ ---\n\n"`, and equals the fixed string
`ไม่พบข้อมูลสนับสนุน` when no search succeeds; each individual search tries
the API provider first and the HTML provider only after the API provider
raised. -/
theorem C6_collect_evidence (claim : String) (m : Nat) (env : FCEnv) :
    (collect_evidence claim m env).search_count =
        (generate_search_queries claim m).length ∧
    (collect_evidence claim m env).search_count ≤ m ∧
    ((collect_evidence claim m env).search_count = 0 →
      (collect_evidence claim m env).success_rate = 0) ∧
    ((collect_evidence claim m env).search_count ≠ 0 →
      (collect_evidence claim m env).success_rate =
        ((collect_evidence claim m env).successful_count : ℚ) /
          ((collect_evidence claim m env).search_count : ℚ)) ∧
    ((evidence_acc claim m env).2 = [] →
      (collect_evidence claim m env).evidence = "ไม่พบข้อมูลสนับสนุน") ∧
    ((evidence_acc claim m env).2 ≠ [] →
      (collect_evidence claim m env).evidence =
        pyJoin evidence_sep ((evidence_acc claim m env).2.map evidence_entry)) ∧
    ((collect_evidence claim m env).successful_count = 0 →
      (collect_evidence claim m env).evidence = "ไม่พบข้อมูลสนับสนุน") ∧
    (∀ q : String,
      ((search_informationT q env).2 = [] ∨
        (search_informationT q env).2 = [Provider.api] ∨
        (search_informationT q env).2 = [Provider.api, Provider.html]) ∧
      (Provider.html ∈ (search_informationT q env).2 →
        ∃ e, env.searchApi q = Except.error e)) := by
  have hcount : (collect_evidence claim m env).search_count =
      (generate_search_queries claim m).length := rfl
  have hsucc : (collect_evidence claim m env).successful_count =
      (evidence_acc claim m env).1 := rfl
  have hentries : (evidence_acc claim m env).2.length ≤ (evidence_acc claim m env).1 :=
    evidence_foldl_le env _ _ (by simp)
  refine ⟨hcount, ?_, ?_, ?_, ?_, ?_, ?_, ?_⟩
  · rw [hcount]
    simp [generate_search_queries]
  · intro h0
    have hemp : (generate_search_queries claim m).isEmpty = true := by
      rw [hcount] at h0
      simpa [List.isEmpty_iff_length_eq_zero] using h0
    show (if (generate_search_queries claim m).isEmpty then (0 : ℚ)
        else mkRat (evidence_acc claim m env).1 (generate_search_queries claim m).length) = 0
    rw [if_pos hemp]
  · intro hne
    have hemp : (generate_search_queries claim m).isEmpty = false := by
      rw [hcount] at hne
      rcases h : (generate_search_queries claim m).isEmpty with _ | _
      · rfl
      · exact absurd (by simpa [List.isEmpty_iff_length_eq_zero] using h) hne
    show (if (generate_search_queries claim m).isEmpty then (0 : ℚ)
        else mkRat (evidence_acc claim m env).1 (generate_search_queries claim m).length) =
      ((collect_evidence claim m env).successful_count : ℚ) /
        ((collect_evidence claim m env).search_count : ℚ)
    rw [if_neg (by simp [hemp]), hsucc, hcount, Rat.mkRat_eq_div]
    push_cast
    rfl
  · intro he
    show (if pyJoin evidence_sep ((evidence_acc claim m env).2.map evidence_entry) = ""
        then "ไม่พบข้อมูลสนับสนุน"
        else pyJoin evidence_sep ((evidence_acc claim m env).2.map evidence_entry)) =
      "ไม่พบข้อมูลสนับสนุน"
    rw [he]
    rfl
  · intro he
    obtain ⟨p, t, hpt⟩ : ∃ p t, (evidence_acc claim m env).2 = p :: t := by
      cases hc : (evidence_acc claim m env).2 with
      | nil => exact absurd hc he
      | cons p t => exact ⟨p, t, rfl⟩
    show (if pyJoin evidence_sep ((evidence_acc claim m env).2.map evidence_entry) = ""
        then "ไม่พบข้อมูลสนับสนุน"
        else pyJoin evidence_sep ((evidence_acc claim m env).2.map evidence_entry)) =
      pyJoin evidence_sep ((evidence_acc claim m env).2.map evidence_entry)
    rw [if_neg ?_]
    rw [hpt, List.map_cons]
    exact pyJoin_ne_empty _ _ _ (evidence_entry_ne_empty p)
  · intro h0
    rw [hsucc] at h0
    have : (evidence_acc claim m env).2 = [] := by
      rw [h0] at hentries
      exact List.length_eq_zero.mp (Nat.le_zero.mp hentries)
    show (if pyJoin evidence_sep ((evidence_acc claim m env).2.map evidence_entry) = ""
        then "ไม่พบข้อมูลสนับสนุน"
        else pyJoin evidence_sep ((evidence_acc claim m env).2.map evidence_entry)) =
      "ไม่พบข้อมูลสนับสนุน"
    rw [this]
    rfl
  · intro q
    unfold search_informationT
    by_cases hq : pyStrip q = ""
    · simp [hq]
    · rw [if_neg hq]
      cases env.searchApi q with
      | ok r => simp
      | error e =>
        cases env.searchHtml q with
        | ok r => simp
        | error e2 => simp

/-- The environment of the C6 counterexample and witness: the API search
returns `"RESULT"` for every query, the HTML search raises, the analysis
raises. -/
def envC6 : SimplifiedFactCheckAgent.FCEnv :=
  ⟨fun _ => Except.ok "RESULT", fun _ => Except.error "err", fun _ => Except.error "err"⟩

/-- C6 counterexample: with one query and one successful search returning
`"RESULT"`, the evidence field is
`คำค้นหา: ตรวจสอบข้อเท็จจริง x\nผลลัพธ์: RESULT` — not the successful result
`"RESULT"` alone, which is what concatenating the successful results with the
separator `--- ผลการค้นหาต่อไปนี้ ---` yields for a single result. -/
theorem C6_collect_evidence_counterexample :
    (SimplifiedFactCheckAgent.evidence_acc "x" 1 envC6).2 =
        [("ตรวจสอบข้อเท็จจริง x", "RESULT")] ∧
    (SimplifiedFactCheckAgent.collect_evidence "x" 1 envC6).successful_count = 1 ∧
    (SimplifiedFactCheckAgent.collect_evidence "x" 1 envC6).evidence ≠
      pyJoin "--- ผลการค้นหาต่อไปนี้ ---" ["RESULT"] := by
  refine ⟨by decide, by decide, by decide⟩

/-- Witness for C6 (amended) at a concrete claim and environment: one query,
one successful search, the joined evidence entry. -/
theorem C6_collect_evidence_witness :
    (SimplifiedFactCheckAgent.collect_evidence "x" 1 envC6).evidence =
      pyJoin SimplifiedFactCheckAgent.evidence_sep
        ((SimplifiedFactCheckAgent.evidence_acc "x" 1 envC6).2.map
          SimplifiedFactCheckAgent.evidence_entry) :=
  (C6_collect_evidence "x" 1 envC6).2.2.2.2.2.1 (by decide)

namespace SimplifiedFactCheckAgent

/-- The prompt of `analyze_claim` (lines 174–198): the template with `{claim}`
and `{evidence}` filled in by `.format`. -/
def analysis_prompt (claim evidence : String) : String :=
  "คุณเป็นผู้เชี่ยวชาญด้านการตรวจสอบข้อเท็จจริงที่มีความแม่นยำสูง\n\nข้ออ้างที่ต้องตรวจสอบ: \"" ++
    claim ++
    "\"\n\nหลักฐานจากการค้นหา:\n" ++
    evidence ++
    "\n\nโปรดวิเคราะห์อย่างละเอียดและตอบในรูปแบบต่อไปนี้:\n\nVERDICT: [จริง/เท็จ/ไม่แน่ใจ/ข้อมูลไม่เพียงพอ]\nCONFIDENCE: [0.0-1.0]\nREASONING: [เหตุผลการวิเคราะห์อย่างละเอียด]\nKEY_EVIDENCE: [หลักฐานสำคัญที่พบ]\nLIMITATIONS: [ข้อจำกัดในการตรวจสอบ]\n\nเกณฑ์การประเมิน:\n- จริง: หลักฐานสนับสนุนอย่างชัดเจน (confidence > 0.8)\n- เท็จ: หลักฐานขัดแย้งอย่างชัดเจน (confidence > 0.8)  \n- ไม่แน่ใจ: หลักฐานผสมผสานหรือไม่ชัดเจน (confidence 0.4-0.8)\n- ข้อมูลไม่เพียงพอ: หลักฐานน้อยเกินไป (confidence < 0.4)\n\nการวิเคราะห์:"

/-- `analyze_claim` (lines 171–213): the critic LLM call parsed with
`_parse_analysis_response`; if the call raises, the fixed failure dict. -/
def analyze_claim (claim evidence : String) (env : FCEnv) : Analysis :=
  match env.analyze (analysis_prompt claim evidence) with
  | .ok resp => _parse_analysis_response resp
  | .error e =>
    ⟨"ข้อมูลไม่เพียงพอ", 0, "เกิดข้อผิดพลาดในการวิเคราะห์: " ++ e, [],
      "ระบบวิเคราะห์ขัดข้อง"⟩

/-- The pydantic model `FactCheckResult` (lines 18–28). The `timestamp` and
`processing_time` fields are wall-clock values and are not modelled; no
claim under verification mentions them. -/
structure FactCheckResult where
  claim : String
  verdict : String
  confidence_score : ℚ
  evidence : List String
  sources : List String
  reasoning : String
  status : String
deriving DecidableEq, Repr

/-- Constructing a pydantic `FactCheckResult`: validation of the declared
field types and constraints (`claim: str`, the `Literal` verdict and status,
`confidence_score` in `[0, 1]`); a violating construction raises a
`ValidationError`. -/
def mk_fact_check_result (claim : PyInput) (verdict : String)
    (confidence_score : ℚ) (evidence sources : List String)
    (reasoning status : String) : Except String FactCheckResult :=
  match claim with
  | .nonStr => .error "ValidationError: claim is not a string"
  | .str c =>
    if valid_verdict verdict && decide (0 ≤ confidence_score) &&
        decide (confidence_score ≤ 1) && valid_status status then
      .ok ⟨c, verdict, confidence_score, evidence, sources, reasoning, status⟩
    else .error "ValidationError: field constraint violated"

/-- The `try:` block of `fact_check` (lines 285–327): an `Except.error` is an
exception reaching the `except` handler, a `ValidationError` from
`FactCheckResult` included. `m` is `self.max_search_results`. -/
def fact_check_body (claim : PyInput) (m : Nat) (env : FCEnv) :
    Except String FactCheckResult :=
  match claim with
  | .nonStr =>
    mk_fact_check_result claim "ข้อมูลไม่เพียงพอ" 0 [] []
      "ข้ออ้างว่างหรือไม่ถูกต้อง" "ล้มเหลว"
  | .str c =>
    if pyStrip c = "" then
      mk_fact_check_result claim "ข้อมูลไม่เพียงพอ" 0 [] []
        "ข้ออ้างว่างหรือไม่ถูกต้อง" "ล้มเหลว"
    else
      let ev := collect_evidence c m env
      let analysis := analyze_claim c ev.evidence env
      let status :=
        if ev.successful_count = 0 then "ข้อมูลไม่เพียงพอ"
        else if analysis.confidence_score < mkRat 3 10 then "ข้อมูลไม่เพียงพอ"
        else "สำเร็จ"
      mk_fact_check_result claim analysis.verdict analysis.confidence_score
        [pySlice 1000 ev.evidence]
        ["ค้นหาสำเร็จ " ++ toString ev.successful_count ++ "/" ++
          toString ev.search_count ++ " ครั้ง"]
        analysis.reasoning status

/-- `fact_check` (lines 280–343): the `try:` body, and on an exception the
`except` handler, which itself constructs a `FactCheckResult` — a second
`ValidationError` there propagates to the caller (`Except.error`). -/
def fact_check (claim : PyInput) (m : Nat) (env : FCEnv) :
    Except String FactCheckResult :=
  match fact_check_body claim m env with
  | .ok r => .ok r
  | .error e =>
    mk_fact_check_result claim "ข้อมูลไม่เพียงพอ" 0 [] []
      ("เกิดข้อผิดพลาดในการประมวลผล: " ++ e) "ล้มเหลว"

theorem mk_fact_check_result_ok (claim : PyInput) (v : String) (conf : ℚ)
    (ev src : List String) (re st : String) (r : FactCheckResult)
    (h : mk_fact_check_result claim v conf ev src re st = Except.ok r) :
    valid_verdict r.verdict = true ∧ 0 ≤ r.confidence_score ∧
      r.confidence_score ≤ 1 ∧ valid_status r.status = true := by
  cases claim with
  | nonStr => exact absurd h (by simp [mk_fact_check_result])
  | str c =>
    simp only [mk_fact_check_result] at h
    by_cases hcond : (valid_verdict v && decide (0 ≤ conf) &&
        decide (conf ≤ 1) && valid_status st) = true
    · rw [if_pos hcond] at h
      simp only [Bool.and_eq_true, decide_eq_true_eq] at hcond
      obtain ⟨⟨⟨h1, h2⟩, h3⟩, h4⟩ := hcond
      cases h
      exact ⟨h1, h2, h3, h4⟩
    · rw [if_neg hcond] at h
      exact absurd h (by simp)

theorem fact_check_body_ok (claim : PyInput) (m : Nat) (env : FCEnv)
    (r : FactCheckResult) (h : fact_check_body claim m env = Except.ok r) :
    valid_verdict r.verdict = true ∧ 0 ≤ r.confidence_score ∧
      r.confidence_score ≤ 1 ∧ valid_status r.status = true := by
  cases claim with
  | nonStr =>
    simp only [fact_check_body] at h
    exact mk_fact_check_result_ok _ _ _ _ _ _ _ _ h
  | str c =>
    simp only [fact_check_body] at h
    by_cases hs : pyStrip c = ""
    · rw [if_pos hs] at h
      exact mk_fact_check_result_ok _ _ _ _ _ _ _ _ h
    · rw [if_neg hs] at h
      exact mk_fact_check_result_ok _ _ _ _ _ _ _ _ h

end SimplifiedFactCheckAgent

open SimplifiedFactCheckAgent in
/-- C3: every `FactCheckResult` that `fact_check` returns — for any input
claim, any `max_search_results` and any behaviour of the search and model
layers — has a verdict among the four literals, a confidence score in
`[0, 1]` and a status among the three literals. -/
theorem C3_fact_check_result_invariants (claim : PyInput) (m : Nat)
    (env : FCEnv) (r : FactCheckResult)
    (h : fact_check claim m env = Except.ok r) :
    valid_verdict r.verdict = true ∧ 0 ≤ r.confidence_score ∧
      r.confidence_score ≤ 1 ∧ valid_status r.status = true := by
  unfold fact_check at h
  cases hb : fact_check_body claim m env with
  | ok r0 =>
    rw [hb] at h
    injection h with h2
    subst h2
    exact fact_check_body_ok claim m env r0 hb
  | error e =>
    rw [hb] at h
    exact mk_fact_check_result_ok _ _ _ _ _ _ _ _ h

/-- The result `fact_check` returns in the C3 witness scenario: claim `"ก"`,
`max_search_results = 0`, every external call raising. -/
def fcResW : SimplifiedFactCheckAgent.FactCheckResult :=
  ⟨"ก", "ข้อมูลไม่เพียงพอ", 0, ["ไม่พบข้อมูลสนับสนุน"], ["ค้นหาสำเร็จ 0/0 ครั้ง"],
    "เกิดข้อผิดพลาดในการวิเคราะห์: err", "ข้อมูลไม่เพียงพอ"⟩

/-- Witness for C3 at a concrete claim and environment. -/
theorem C3_fact_check_result_invariants_witness :
    SimplifiedFactCheckAgent.valid_verdict fcResW.verdict = true ∧
      0 ≤ fcResW.confidence_score ∧ fcResW.confidence_score ≤ 1 ∧
      SimplifiedFactCheckAgent.valid_status fcResW.status = true :=
  C3_fact_check_result_invariants (PyInput.str "ก") 0 envC6 fcResW rfl

/-- C4 counterexample: `fact_check` does propagate an exception for a
non-string claim (such as `None`). The validation branch constructs
`FactCheckResult(claim=claim, ...)` inside the `try:`, pydantic raises a
`ValidationError` for the non-string `claim` field, and the `except` handler
then performs the same construction again, whose `ValidationError` reaches
the caller. -/
theorem C4_error_wrapping_counterexample :
    SimplifiedFactCheckAgent.fact_check PyInput.nonStr 0 envC6 =
      Except.error "ValidationError: claim is not a string" := rfl

open SimplifiedFactCheckAgent in
/-- C4 (amended): `explain_topic` never propagates an exception, and for
every valid topic, if the chain invocation raises `e` it returns
`ไม่สามารถอธิบายหัวข้อได้: ` followed by the message of `e`; `fact_check`
never propagates an exception **for every string claim**, and when its
`try:` body raises `e` it returns a `FactCheckResult` whose reasoning embeds
the message of `e` and whose status is `ล้มเหลว`. -/
theorem C4_error_wrapping :
    (∀ (s e : String), pyStrip s ≠ "" →
      BasicLLMPipeline.explain_topicT (PyInput.str s) true (Except.error e) =
        ("ไม่สามารถอธิบายหัวข้อได้: " ++ e, true)) ∧
    (∀ (c : String) (m : Nat) (env : FCEnv), ∃ r,
      fact_check (PyInput.str c) m env = Except.ok r) ∧
    (∀ (c : String) (m : Nat) (env : FCEnv) (e : String),
      fact_check_body (PyInput.str c) m env = Except.error e →
      fact_check (PyInput.str c) m env = Except.ok
        ⟨c, "ข้อมูลไม่เพียงพอ", 0, [], [],
          "เกิดข้อผิดพลาดในการประมวลผล: " ++ e, "ล้มเหลว"⟩) := by
  refine ⟨?_, ?_, ?_⟩
  · intro s e hs
    simp [BasicLLMPipeline.explain_topicT, hs]
  · intro c m env
    cases hb : fact_check_body (PyInput.str c) m env with
    | ok r0 =>
      refine ⟨r0, ?_⟩
      unfold fact_check
      rw [hb]
    | error e =>
      refine ⟨⟨c, "ข้อมูลไม่เพียงพอ", 0, [], [],
        "เกิดข้อผิดพลาดในการประมวลผล: " ++ e, "ล้มเหลว"⟩, ?_⟩
      unfold fact_check
      rw [hb]
      rfl
  · intro c m env e hb
    unfold fact_check
    rw [hb]
    rfl

/-- The environment of the C4 witness: the searches raise and the critic LLM
answers with an out-of-range confidence, so that the `try:` body of
`fact_check` ends in a pydantic `ValidationError`. -/
def envC4 : SimplifiedFactCheckAgent.FCEnv :=
  ⟨fun _ => Except.error "e", fun _ => Except.error "e",
    fun _ => Except.ok "CONFIDENCE: 10.5"⟩

/-- Witness for C4 (amended) at a concrete claim and environment where the
`try:` body raises: the returned result embeds the message and has status
`ล้มเหลว`. -/
theorem C4_error_wrapping_witness :
    SimplifiedFactCheckAgent.fact_check (PyInput.str "ก") 0 envC4 =
      Except.ok ⟨"ก", "ข้อมูลไม่เพียงพอ", 0, [], [],
        "เกิดข้อผิดพลาดในการประมวลผล: ValidationError: field constraint violated",
        "ล้มเหลว"⟩ :=
  C4_error_wrapping.2.2 "ก" 0 envC4 "ValidationError: field constraint violated"
    (by rfl)

/-!
## `LangChainSQL.py` — `OptimizedSQLAgent`

`query` (lines 418–438) validates the question, runs `query_direct_sql`
(lines 280–376) — a keyword-pattern match against `sql_patterns` whose first
case-insensitive hit executes the hand-written SQL against SQLite, with a
fallback to the LangChain agent loop (`query_with_agent`, lines 378–416) —
and optionally appends the result to `query_history` and, on success, to the
conversation memory. The environment supplies the outcome of
`pd.read_sql_query` (a data frame) and of `agent_executor.invoke`. The dicts
carry a `timestamp` and a `processing_time`; both are wall-clock values and
are not modelled, and no claim under verification mentions them. The source
file stores its Thai text with a damaged encoding (the bytes below); the
strings are copied from the file as they stand.
-/

namespace OptimizedSQLAgent

/-- A cell of a pandas data frame read from SQLite. -/
inductive SqlVal where
  | int (i : ℤ)
  | real (q : ℚ)
  | str (s : String)
deriving DecidableEq, Repr

/-- A pandas data frame: column names and rows of cells. -/
structure Frame where
  columns : List String
  rows : List (List SqlVal)
deriving DecidableEq, Repr

/-- `row[i]` (positional). A Python out-of-range access would raise into the
broad handler; the frames of the fixed statements are well-formed and no
verified claim inspects the answer text, so the model totalises it. -/
def rowGet (row : List SqlVal) (i : Nat) : SqlVal := row.getD i (SqlVal.str "")

/-- `row[name]` (by column name), totalised the same way. -/
def colGet (df : Frame) (row : List SqlVal) (c : String) : SqlVal :=
  match df.columns.findIdx? (· == c) with
  | some i => rowGet row i
  | none => SqlVal.str ""

/-- Digit grouping of `f"{n:,}"`, on the reversed digit list. -/
def groupRev : Nat → List Char → List Char
  | _, [] => []
  | 0, l => l
  | f + 1, l => if l.length ≤ 3 then l else l.take 3 ++ ',' :: groupRev f (l.drop 3)

/-- Python `f"{n:,}"` for a natural number. -/
def pyFormatCommaNat (n : Nat) : String :=
  ⟨(groupRev (Nat.toDigits 10 n).length (Nat.toDigits 10 n).reverse).reverse⟩

/-- Python `f"{i:,}"` for an integer. -/
def pyFormatCommaInt (i : ℤ) : String :=
  (if i < 0 then "-" else "") ++ pyFormatCommaNat i.natAbs

/-- The decimal digits of `num/den < 1`, up to the fuel (floats always
terminate within 64 digits). -/
def ratFracDigits : Nat → Nat → Nat → List Char
  | _, 0, _ => []
  | 0, _ + 1, _ => []
  | f + 1, r + 1, den =>
    Char.ofNat (48 + (r + 1) * 10 / den) :: ratFracDigits f ((r + 1) * 10 % den) den

/-- The decimal rendering of a rational modelling a float (`str(x)` when
`grouped` is false, `f"{x:,}"` when true): integer part, point, fractional
digits, a single `0` for a whole number, as Python prints floats. -/
def ratRepr (q : ℚ) (grouped : Bool) : String :=
  let a := |q|
  let ip := (⌊a⌋).toNat
  let fr := a - (ip : ℚ)
  let ds := ratFracDigits 64 fr.num.toNat fr.den
  (if q < 0 then "-" else "") ++
    (if grouped then pyFormatCommaNat ip else (⟨Nat.toDigits 10 ip⟩ : String)) ++
    "." ++ (if ds.isEmpty then "0" else (⟨ds⟩ : String))

/-- Python `f"{v}"` of a cell. -/
def sqlValStr : SqlVal → String
  | .int i => toString i
  | .real q => ratRepr q false
  | .str s => s

/-- Python `f"{v:,}"` of a cell (a `str` cell would raise in Python; see
`rowGet` on totalisation). -/
def pyFormatComma : SqlVal → String
  | .int i => pyFormatCommaInt i
  | .real q => ratRepr q true
  | .str s => s

/-- Round half to even, as Python `{:,.0f}` rounds. -/
def roundHalfEven (q : ℚ) : ℤ :=
  let f := ⌊q⌋
  if q - f < mkRat 1 2 then f
  else if mkRat 1 2 < q - f then f + 1
  else if f % 2 = 0 then f else f + 1

/-- Python `f"{v:,.0f}"` of a cell. -/
def pyFormatComma0f : SqlVal → String
  | .int i => pyFormatCommaInt i
  | .real q => pyFormatCommaInt (roundHalfEven q)
  | .str s => s

/-- The keyword-to-SQL table of `query_direct_sql` (lines 286–299), in the
source's insertion order. -/
def sql_patterns : List (String × String) :=
  [
    ("‡πÄ‡∏á‡∏¥‡∏ô‡πÄ‡∏î‡∏∑‡∏≠‡∏ô‡∏™‡∏π‡∏á‡∏™‡∏∏‡∏î",
      "SELECT name, salary FROM users ORDER BY salary DESC LIMIT 1"),
    ("engineering",
      "SELECT name, salary FROM users WHERE department = 'Engineering'"),
    ("electronics",
      "SELECT name, price FROM products WHERE category = 'Electronics'"),
    ("‡∏≠‡∏≤‡∏¢‡∏∏‡∏°‡∏≤‡∏Å‡∏Å‡∏ß‡πà‡∏≤ 30",
      "SELECT name, age FROM users WHERE age > 30"),
    ("‡∏™‡∏ï‡πá‡∏≠‡∏Å‡∏ô‡πâ‡∏≠‡∏¢‡∏ó‡∏µ‡πà‡∏™‡∏∏‡∏î",
      "SELECT name, stock FROM products ORDER BY stock ASC LIMIT 1"),
    ("‡∏ù‡πà‡∏≤‡∏¢‡πÑ‡∏´‡∏ô‡∏°‡∏µ‡∏Ñ‡∏ô‡∏°‡∏≤‡∏Å‡∏ó‡∏µ‡πà‡∏™‡∏∏‡∏î",
      "SELECT department, COUNT(*) as count FROM users GROUP BY department ORDER BY count DESC LIMIT 1"),
    ("‡πÄ‡∏á‡∏¥‡∏ô‡πÄ‡∏î‡∏∑‡∏≠‡∏ô‡πÄ‡∏â‡∏•‡∏µ‡πà‡∏¢",
      "SELECT AVG(salary) as avg_salary FROM users"),
    ("alice",
      "SELECT u.name, p.name as product_name, o.quantity \n                          FROM orders o \n                          JOIN users u ON o.user_id = u.id \n                          JOIN products p ON o.product_id = p.id \n                          WHERE u.name LIKE '%Alice%'")]

/-- The match test of lines 305–306: the key, lowered, is a substring of the
lowered question. -/
def sql_pred (question : String) (p : String × String) : Bool :=
  pyContains (pyLower question) (pyLower p.1)

/-- The answer formatting of `query_direct_sql` (lines 317–349). -/
def format_answer (df : Frame) : String :=
  if df.rows.isEmpty then "‡πÑ‡∏°‡πà‡∏û‡∏ö‡∏Ç‡πâ‡∏≠‡∏°‡∏π‡∏•‡∏ó‡∏µ‡πà‡∏ï‡πâ‡∏≠‡∏á‡∏Å‡∏≤‡∏£"
  else if df.rows.length = 1 ∧ df.columns.length = 2 then
    let row := df.rows.headD []
    if df.columns.contains "salary" then
      sqlValStr (rowGet row 0) ++ " ‡∏°‡∏µ‡πÄ‡∏á‡∏¥‡∏ô‡πÄ‡∏î‡∏∑‡∏≠‡∏ô " ++ pyFormatComma (rowGet row 1) ++ " ‡∏ö‡∏≤‡∏ó"
    else if df.columns.contains "price" then
      sqlValStr (rowGet row 0) ++ " ‡∏£‡∏≤‡∏Ñ‡∏≤ " ++ pyFormatComma (rowGet row 1) ++ " ‡∏ö‡∏≤‡∏ó"
    else if df.columns.contains "age" then
      sqlValStr (rowGet row 0) ++ " ‡∏≠‡∏≤‡∏¢‡∏∏ " ++ sqlValStr (rowGet row 1) ++ " ‡∏õ‡∏µ"
    else if df.columns.contains "stock" then
      sqlValStr (rowGet row 0) ++ " ‡∏°‡∏µ‡∏™‡∏ï‡πá‡∏≠‡∏Å " ++ sqlValStr (rowGet row 1) ++ " ‡∏ä‡∏¥‡πâ‡∏ô"
    else if df.columns.contains "count" then
      "‡∏ù‡πà‡∏≤‡∏¢" ++ " " ++ sqlValStr (rowGet row 0) ++ " ‡∏°‡∏µ " ++ sqlValStr (rowGet row 1) ++ " ‡∏Ñ‡∏ô"
    else sqlValStr (rowGet row 0) ++ ": " ++ sqlValStr (rowGet row 1)
  else if df.columns.contains "avg_salary" then
    "‡πÄ‡∏á‡∏¥‡∏ô‡πÄ‡∏î‡∏∑‡∏≠‡∏ô‡πÄ‡∏â‡∏•‡∏µ‡πà‡∏¢" ++ " " ++ pyFormatComma0f (colGet df (df.rows.headD []) "avg_salary") ++ " ‡∏ö‡∏≤‡∏ó"
  else
    pyJoin ", " (df.rows.map (fun row =>
      if df.columns.contains "salary" then
        sqlValStr (colGet df row "name") ++ " (" ++ pyFormatComma (colGet df row "salary") ++ " ‡∏ö‡∏≤‡∏ó)"
      else if df.columns.contains "price" then
        sqlValStr (colGet df row "name") ++ " (" ++ pyFormatComma (colGet df row "price") ++ " ‡∏ö‡∏≤‡∏ó)"
      else if df.columns.contains "age" then
        sqlValStr (colGet df row "name") ++ " (" ++ sqlValStr (colGet df row "age") ++ " ‡∏õ‡∏µ)"
      else sqlValStr (rowGet row 0)))

/-- Scan past the next closing triple backtick of a fenced block, returning
what follows it; `none` when there is no closing fence. -/
def dropThroughFence : Nat → List Char → Option (List Char)
  | _, [] => none
  | 0, _ => none
  | f + 1, c :: rest =>
    if c = '\x60' ∧ rest.take 2 = ['\x60', '\x60'] then some (rest.drop 2)
    else dropThroughFence f rest

/-- The opening of a ```sql fenced block. -/
def isSqlFence (l : List Char) : Bool :=
  l.take 6 = ['\x60', '\x60', '\x60', 's', 'q', 'l']

/-- `re.sub` of the non-greedy DOTALL fenced-SQL-block pattern of line 443:
each opening fence with a closing fence is removed with the span between
them; an opening with no closing fence stays (the pattern needs the closing
fence). -/
def removeSqlBlocksAux : Nat → List Char → List Char
  | _, [] => []
  | 0, l => l
  | f + 1, c :: rest =>
    if isSqlFence (c :: rest) then
      match dropThroughFence rest.length (rest.drop 5) with
      | some rem => removeSqlBlocksAux f rem
      | none => c :: removeSqlBlocksAux f rest
    else c :: removeSqlBlocksAux f rest

/-- Scan past the next `;`, aborting at a newline or the end (the `.` of the
pattern does not match a newline); returns what follows the `;`. -/
def dropThroughSemi : Nat → List Char → Option (List Char)
  | _, [] => none
  | 0, _ => none
  | f + 1, c :: rest =>
    if c = ';' then some rest
    else if c = '\n' then none
    else dropThroughSemi f rest

/-- A case-insensitive `SELECT` at the head of the list. -/
def isSelectHead (l : List Char) : Bool :=
  (l.take 6).map Char.toLower = ['s', 'e', 'l', 'e', 'c', 't']

/-- `re.sub(r'SELECT.*?;', '', answer, flags=re.IGNORECASE)` (line 444): a
case-insensitive `SELECT` up to the nearest `;` on the same line is removed;
with no such `;` the occurrence stays. -/
def removeSelectAux : Nat → List Char → List Char
  | _, [] => []
  | 0, l => l
  | f + 1, c :: rest =>
    if isSelectHead (c :: rest) then
      match dropThroughSemi rest.length ((c :: rest).drop 6) with
      | some rem => removeSelectAux f rem
      | none => c :: removeSelectAux f rest
    else c :: removeSelectAux f rest

/-- `re.sub(r'\s+', ' ', answer)` (line 447). -/
def collapseWsAux : Nat → List Char → List Char
  | _, [] => []
  | 0, l => l
  | f + 1, c :: rest =>
    if isPyWs c then ' ' :: collapseWsAux f (rest.dropWhile isPyWs)
    else c :: collapseWsAux f rest

/-- A word character of the Python regex `\b` boundary. Non-ASCII characters
are uniformly treated as word characters — true for the Thai letters of the
answers; immaterial to the verified claims, which never inspect answer
text. -/
def pyIsWordChar (c : Char) : Bool :=
  c.isAlphanum || c = '_' || decide (128 ≤ c.toNat)

/-- `re.sub(r'\b\d{4,}\b', format_number, answer)` (lines 450–454): each
maximal digit run of length at least 4 with no word character on either side
becomes the comma-grouped rendering of its integer value. `prevWord` tells
whether the character before the current position is a word character. -/
def formatNumbersAux : Nat → Bool → List Char → List Char
  | _, _, [] => []
  | 0, _, l => l
  | f + 1, prevWord, c :: rest =>
    if c.isDigit then
      let run := (c :: rest).takeWhile Char.isDigit
      let after := (c :: rest).dropWhile Char.isDigit
      if !prevWord && decide (4 ≤ run.length) &&
          !(pyIsWordChar (after.headD ' ')) then
        (pyFormatCommaNat (SimplifiedFactCheckAgent.digitsToNat run)).data ++ formatNumbersAux f true after
      else run ++ formatNumbersAux f true after
    else c :: formatNumbersAux f (pyIsWordChar c) rest

/-- `_clean_answer` (lines 440–456). -/
def _clean_answer (answer : String) : String :=
  let a1 := removeSqlBlocksAux answer.data.length answer.data
  let a2 := removeSelectAux a1.length a1
  let a3 := pyStripList (collapseWsAux a2.length a2)
  ⟨formatNumbersAux a3.length false a3⟩

/-- The dict the query methods return. The early-validation return of
`query` (lines 421–427) carries no `method` key, hence the `Option`. -/
structure SqlResult where
  success : Bool
  answer : String
  question : String
  method : Option String
deriving DecidableEq, Repr

/-- What a query run touched: the SQL statement executed directly against
the database, if any, and whether the agent loop ran. -/
structure SqlTrace where
  dbExecuted : Option String
  agentCalled : Bool
deriving DecidableEq, Repr

/-- Outcomes of the external calls: `dbRun sql` is `pd.read_sql_query(sql,
conn)`, `agentRun input` is `agent_executor.invoke({"input": input})`, whose
`output` key may be missing (`none`). -/
structure SqlEnv where
  dbRun : String → Except String Frame
  agentRun : String → Except String (Option String)

/-- `query_with_agent` (lines 378–416), instrumented with the trace. -/
def query_with_agent (question : String) (env : SqlEnv) : SqlResult × SqlTrace :=
  let enhanced := "‡∏ï‡∏≠‡∏ö‡∏™‡∏±‡πâ‡∏ô‡πÜ: " ++ question
  match env.agentRun enhanced with
  | .ok out =>
    ({ success := true, answer := _clean_answer (out.getD "‡πÑ‡∏°‡πà‡∏™‡∏≤‡∏°‡∏≤‡∏£‡∏ñ‡∏´‡∏≤‡∏Ñ‡∏≥‡∏ï‡∏≠‡∏ö‡πÑ‡∏î‡πâ"),
       question := question, method := some "agent" }, ⟨none, true⟩)
  | .error e =>
    ({ success := false, answer := "‡πÄ‡∏Å‡∏¥‡∏î‡∏Ç‡πâ‡∏≠‡∏ú‡∏¥‡∏î‡∏û‡∏•‡∏≤‡∏î: " ++ e,
       question := question, method := some "agent" }, ⟨none, true⟩)

/-- `query_direct_sql` (lines 280–376), instrumented with the trace: the
first pattern whose lowered key is a substring of the lowered question runs
its SQL directly; an exception there is answered with the error message and
method `direct_sql`; with no match the agent loop takes over. -/
def query_direct_sql (question : String) (env : SqlEnv) : SqlResult × SqlTrace :=
  match sql_patterns.find? (sql_pred question) with
  | some p =>
    match env.dbRun p.2 with
    | .ok df =>
      ({ success := true, answer := format_answer df, question := question,
         method := some "direct_sql" }, ⟨some p.2, false⟩)
    | .error e =>
      ({ success := false, answer := "‡πÄ‡∏Å‡∏¥‡∏î‡∏Ç‡πâ‡∏≠‡∏ú‡∏¥‡∏î‡∏û‡∏•‡∏≤‡∏î: " ++ e,
         question := question, method := some "direct_sql" }, ⟨some p.2, false⟩)
  | none => query_with_agent question env

/-- The mutable state of the agent: `self.query_history` and the
conversation-buffer memory as the list of its saved
`(input, output)` contexts. -/
structure AgentState where
  query_history : List SqlResult
  memory : List (String × String)
deriving DecidableEq, Repr

/-- `query` (lines 418–438), instrumented with the updated state and the
trace. -/
def queryT (question : String) (save_history : Bool) (st : AgentState)
    (env : SqlEnv) : SqlResult × AgentState × SqlTrace :=
  if question = "" ∨ pyStrip question = "" then
    ({ success := false, answer := "‡∏Ñ‡∏≥‡∏ñ‡∏≤‡∏°‡∏ß‡πà‡∏≤‡∏á‡∏´‡∏£‡∏∑‡∏≠‡πÑ‡∏°‡πà‡∏ñ‡∏π‡∏Å‡∏ï‡πâ‡∏≠‡∏á",
       question := question, method := none }, st, ⟨none, false⟩)
  else
    let r := query_direct_sql question env
    let st' :=
      if save_history then
        { query_history := st.query_history ++ [r.1],
          memory :=
            if r.1.success then st.memory ++ [(question, r.1.answer)]
            else st.memory }
      else st
    (r.1, st', r.2)

end OptimizedSQLAgent

namespace OptimizedSQLAgent

theorem queryT_valid (question : String) (save_history : Bool) (st : AgentState)
    (env : SqlEnv) (h : pyStrip question ≠ "") :
    (queryT question save_history st env).1 = (query_direct_sql question env).1 ∧
    (queryT question save_history st env).2.2 = (query_direct_sql question env).2 := by
  have hguard : ¬(question = "" ∨ pyStrip question = "") := by
    rintro (rfl | hq)
    · exact h rfl
    · exact h hq
  unfold queryT
  rw [if_neg hguard]
  exact ⟨rfl, rfl⟩

end OptimizedSQLAgent

open OptimizedSQLAgent in
/-- C2 (amended): for every question that is non-empty after stripping,
`OptimizedSQLAgent.query` first performs the keyword-pattern match: if some
fixed pattern key is a case-insensitive substring of the question, the SQL
statement of the first such key is executed directly against the database
and the result has method `direct_sql` (the agent loop does not run); if no
pattern matches, the question goes to the generic agent loop and the result
has method `agent`. -/
theorem C2_sql_query_dispatch (question : String) (save_history : Bool)
    (st : AgentState) (env : SqlEnv) (h : pyStrip question ≠ "") :
    ((∃ p ∈ sql_patterns, sql_pred question p = true) →
      (queryT question save_history st env).1.method = some "direct_sql" ∧
      (queryT question save_history st env).2.2.agentCalled = false) ∧
    (∀ pat, sql_patterns.find? (sql_pred question) = some pat →
      (queryT question save_history st env).2.2.dbExecuted = some pat.2) ∧
    ((∀ p ∈ sql_patterns, sql_pred question p = false) →
      (queryT question save_history st env).1.method = some "agent" ∧
      (queryT question save_history st env).2.2.dbExecuted = none ∧
      (queryT question save_history st env).2.2.agentCalled = true) := by
  obtain ⟨hres, htr⟩ := queryT_valid question save_history st env h
  rw [hres, htr]
  refine ⟨?_, ?_, ?_⟩
  · rintro ⟨p, hp, hpred⟩
    cases hfind : sql_patterns.find? (sql_pred question) with
    | none =>
      rw [List.find?_eq_none] at hfind
      exact absurd hpred (hfind p hp)
    | some pat =>
      unfold query_direct_sql
      simp only [hfind]
      cases env.dbRun pat.2 with
      | ok df => exact ⟨rfl, rfl⟩
      | error e => exact ⟨rfl, rfl⟩
  · intro pat hfind
    unfold query_direct_sql
    simp only [hfind]
    cases env.dbRun pat.2 with
    | ok df => rfl
    | error e => rfl
  · intro hnone
    have hfind : sql_patterns.find? (sql_pred question) = none := by
      rw [List.find?_eq_none]
      intro p hp
      rw [hnone p hp]
      simp
    unfold query_direct_sql
    simp only [hfind, query_with_agent]
    cases env.agentRun _ with
    | ok out => exact ⟨rfl, rfl, rfl⟩
    | error e => exact ⟨rfl, rfl, rfl⟩

/-- The empty initial state and an environment whose database and agent
calls raise, for the C2 counterexample and witness. -/
def envSQL : OptimizedSQLAgent.SqlEnv :=
  ⟨fun _ => Except.error "db down", fun _ => Except.error "agent down"⟩

/-- C2 counterexample: the whitespace question `" "` is non-empty, and no
pattern key matches it, yet the returned dict has no `method` key at all —
the validation branch of `query` returns before any pattern match, so the
claim's `method = 'agent'` fails for it. -/
theorem C2_sql_query_dispatch_counterexample :
    " " ≠ "" ∧
    (∀ p ∈ OptimizedSQLAgent.sql_patterns,
      OptimizedSQLAgent.sql_pred " " p = false) ∧
    (OptimizedSQLAgent.queryT " " true ⟨[], []⟩ envSQL).1.method = none := by
  refine ⟨by decide, by decide, rfl⟩

/-- Witness for C2 (amended) at the concrete question `"alice please"`,
which matches the `alice` pattern key. -/
theorem C2_sql_query_dispatch_witness :
    (OptimizedSQLAgent.queryT "alice please" true ⟨[], []⟩ envSQL).1.method =
      some "direct_sql" :=
  ((C2_sql_query_dispatch "alice please" true ⟨[], []⟩ envSQL (by decide)).1
    (by decide)).1

open OptimizedSQLAgent in
/-- C9: `OptimizedSQLAgent.query` appends an entry to `query_history` exactly
when `save_history` is true and the question is non-empty after stripping;
the conversation memory gains the `(question, answer)` context only when, in
addition, the returned result has success true; and a call with an empty or
whitespace-only question leaves the whole state unchanged. -/
theorem C9_sql_query_frame (question : String) (save_history : Bool)
    (st : AgentState) (env : SqlEnv) :
    (pyStrip question = "" → (queryT question save_history st env).2.1 = st) ∧
    (pyStrip question ≠ "" ∧ save_history = true →
      (queryT question save_history st env).2.1.query_history =
        st.query_history ++ [(queryT question save_history st env).1]) ∧
    (¬(pyStrip question ≠ "" ∧ save_history = true) →
      (queryT question save_history st env).2.1.query_history =
        st.query_history) ∧
    ((queryT question save_history st env).2.1.memory ≠ st.memory →
      save_history = true ∧ pyStrip question ≠ "" ∧
        (queryT question save_history st env).1.success = true) ∧
    (pyStrip question ≠ "" ∧ save_history = true ∧
        (queryT question save_history st env).1.success = true →
      (queryT question save_history st env).2.1.memory =
        st.memory ++ [(question, (queryT question save_history st env).1.answer)]) := by
  by_cases hq : pyStrip question = ""
  · have hguard : question = "" ∨ pyStrip question = "" := Or.inr hq
    have hst : (queryT question save_history st env).2.1 = st := by
      unfold queryT
      rw [if_pos hguard]
    refine ⟨fun _ => hst, ?_, fun _ => by rw [hst], ?_, ?_⟩
    · rintro ⟨hq2, -⟩
      exact absurd hq hq2
    · intro hmem
      exact absurd (by rw [hst]) hmem
    · rintro ⟨hq2, -⟩
      exact absurd hq hq2
  · have hguard : ¬(question = "" ∨ pyStrip question = "") := by
      rintro (rfl | h2)
      · exact hq rfl
      · exact hq h2
    have hq' : queryT question save_history st env =
        ((query_direct_sql question env).1,
          (if save_history then
            { query_history := st.query_history ++ [(query_direct_sql question env).1],
              memory :=
                if (query_direct_sql question env).1.success then
                  st.memory ++ [(question, (query_direct_sql question env).1.answer)]
                else st.memory }
          else st),
          (query_direct_sql question env).2) := by
      unfold queryT
      rw [if_neg hguard]
    rw [hq']
    cases save_history with
    | false =>
      refine ⟨fun h2 => absurd h2 hq, ?_, fun _ => rfl, ?_, ?_⟩
      · rintro ⟨-, hsh⟩
        exact absurd hsh (by simp)
      · intro hmem
        simp at hmem
      · rintro ⟨-, hsh, -⟩
        exact absurd hsh (by simp)
    | true =>
      refine ⟨fun h2 => absurd h2 hq, fun _ => by simp, ?_, ?_, ?_⟩
      · intro h2
        exact absurd ⟨hq, rfl⟩ h2
      · intro hmem
        refine ⟨rfl, hq, ?_⟩
        by_cases hs : (query_direct_sql question env).1.success = true
        · exact hs
        · simp only [if_true] at hmem
          rw [if_neg hs] at hmem
          simp at hmem
      · rintro ⟨-, -, hs⟩
        simp only [if_true]
        rw [if_pos hs]
